import Mathlib

/-!
Verification of swiftfetch's data-collection and rendering pipeline.

Shallow embedding of the Rust sources:
  - src/utils/parsing.rs       (format_uptime)
  - src/collectors/hardware.rs (disk size formatter, GPU detection/sorting)
  - src/collectors/system.rs   (shell-detection ancestor walk)
  - src/display.rs             (color resolution, renderer, Kitty image protocol)

Strings are modelled with Lean `String`s, but the primitive operations the
Rust code uses (`contains`, `trim`, `to_lowercase`, `starts_with`, `split`,
`find`/`rfind`) are implemented here structurally over `String.data`
(`List Char`), so that closed propositions about them can be evaluated by
`decide`.  Rust byte indices returned by `find`/`rfind` always sit on UTF-8
character boundaries, so slicing at those indices is modelled exactly by
character-position slicing.  Where a Rust operation is Unicode-aware beyond
ASCII (`to_lowercase`, `trim`), the embedding matches it on ASCII input,
which covers every literal the embedded code and theorems use.
-/

namespace Swiftfetch

/-- Tests whether `pat` occurs at the head of `l` (Rust `starts_with` on the
remainder of a string). -/
def headedBy (l pat : List Char) : Bool := l.take pat.length == pat

/-- Character index of the first occurrence of substring `pat` in `l`
(Rust `str::find` modulo byte-vs-character positions). -/
def findSubstrIdx (l pat : List Char) : Option Nat :=
  (List.range (l.length + 1)).find? (fun i => headedBy (l.drop i) pat)

/-- Character index of the last occurrence of substring `pat` in `l`
(Rust `str::rfind` modulo byte-vs-character positions). -/
def rfindSubstrIdx (l pat : List Char) : Option Nat :=
  ((List.range (l.length + 1)).filter (fun i => headedBy (l.drop i) pat)).getLast?

/-- Rust `str::contains` for a substring pattern. -/
def strContains (s pat : String) : Bool := (findSubstrIdx s.data pat.data).isSome

/-- Rust `str::starts_with` for a string pattern. -/
def strStarts (s pat : String) : Bool := headedBy s.data pat.data

/-- Rust `str::trim` (Unicode-whitespace on both ends; exact on ASCII). -/
def strTrim (s : String) : String :=
  String.mk (((s.data.dropWhile Char.isWhitespace).reverse.dropWhile
    Char.isWhitespace).reverse)

/-- Rust `str::to_lowercase` (exact on ASCII, which covers all uses below). -/
def strLower (s : String) : String := String.mk (s.data.map Char.toLower)

/-- Character index of the last occurrence of character `c` in `l`
(Rust `str::rfind(char)`). -/
def rfindCharIdx (l : List Char) (c : Char) : Option Nat :=
  match l.reverse.findIdx? (· == c) with
  | some j => some (l.length - 1 - j)
  | none => none

/-- Rust `s.split(pat).next().unwrap_or(s)`: the prefix of `s` before the
first occurrence of `pat`, or all of `s` when `pat` does not occur. -/
def takeBeforeSubstr (s pat : String) : String :=
  match findSubstrIdx s.data pat.data with
  | some i => String.mk (s.data.take i)
  | none => s

/-- Rust `str::split` for a non-empty string pattern: repeated leftmost
non-overlapping matches. -/
def splitOnL (pat l : List Char) : List (List Char) :=
  if hp : pat = [] then [l]
  else
    match hf : findSubstrIdx l pat with
    | some i => l.take i :: splitOnL pat (l.drop (i + pat.length))
    | none => [l]
  termination_by l.length
  decreasing_by
    have h1 : headedBy (l.drop i) pat = true := by
      have := List.find?_some hf
      simpa using this
    have h2 : (l.drop i).take pat.length = pat := by
      simpa [headedBy] using h1
    have h3 : pat.length ≤ l.length - i := by
      have hlen := congrArg List.length h2
      simp only [List.length_take, List.length_drop] at hlen
      omega
    have h4 : 0 < pat.length := List.length_pos.mpr hp
    simp only [List.length_drop]
    omega

/-- Rust `s.split(pat).last()` (always a `Some` for `str::split`),
with a default for the impossible `None`. -/
def lastSplitPart (s pat : String) (dflt : String) : String :=
  match (splitOnL pat.data s.data).getLast? with
  | some part => String.mk part
  | none => dflt

/-- Rust `s.split(c).last().unwrap_or(dflt)` for a single-character
separator: the suffix of `s` after the last occurrence of `c` (the whole
string when `c` does not occur; `split` never yields `None`, so `dflt` is
dead). -/
def afterLastChar (s : String) (c : Char) : String :=
  match rfindCharIdx s.data c with
  | some i => String.mk (s.data.drop (i + 1))
  | none => s

/-- Rust `str::trim_end_matches(c)`: repeatedly strip a trailing character. -/
def trimTrailing (s : String) (c : Char) : String :=
  String.mk ((s.data.reverse.dropWhile (· == c)).reverse)

/-- Rust `str::replace` (all leftmost non-overlapping occurrences). -/
def replaceL (pat rep : List Char) (l : List Char) : List Char :=
  match l with
  | [] => []
  | c :: rest =>
    if headedBy (c :: rest) pat ∧ pat ≠ [] then
      rep ++ replaceL pat rep ((c :: rest).drop pat.length)
    else
      c :: replaceL pat rep rest
  termination_by l.length
  decreasing_by
  · rename_i h
    have hp : 0 < pat.length := List.length_pos.mpr h.2
    simp only [List.length_drop, List.length_cons]
    omega
  · simp only [List.length_cons]; omega

/-- Rust `str::replace` on `String`s. -/
def strReplace (s pat rep : String) : String :=
  String.mk (replaceL pat.data rep.data s.data)

/-- Models Rust `format!("\x7b:02\x7d", n)` for an unsigned integer:
zero-pad to width 2. -/
def pad2 (n : Nat) : String :=
  if n < 10 then "0" ++ toString n else toString n

/-- From src/utils/parsing.rs, `format_uptime`: hours = seconds / 3600,
minutes = (seconds % 3600) / 60; `"\x7bh\x7dh \x7bmm:02\x7dm"` if hours > 0
else `"\x7bm\x7dm"`. -/
def format_uptime (seconds : Nat) : String :=
  let hours := seconds / 3600
  let minutes := (seconds % 3600) / 60
  if hours > 0 then
    toString hours ++ "h " ++ pad2 minutes ++ "m"
  else
    toString minutes ++ "m"

/-- Models Rust `format!("\x7b:.1\x7d", n as f64 / d as f64)` by exact rational
rounding (round half to even) of `n / d` to one decimal place. For the byte
counts used in the theorems below the `f64` quotient is exact, so this agrees
with the Rust float formatting. -/
def fmtOneDecimal (n d : Nat) : String :=
  let t := 10 * n
  let q := t / d
  let r := t % d
  let rounded :=
    if 2 * r < d then q
    else if d < 2 * r then q + 1
    else if q % 2 = 0 then q else q + 1
  toString (rounded / 10) ++ "." ++ toString (rounded % 10)

/-- From src/collectors/hardware.rs, the `format_size` closure in
`get_disk_usage`: decimal thresholds 10^12 -> T, 10^9 -> G, 10^6 -> M, each
with one decimal place, otherwise integer division by 1024 with a K suffix
and no decimal place. -/
def format_size (bytes : Nat) : String :=
  if bytes ≥ 1000000000000 then fmtOneDecimal bytes 1000000000000 ++ "T"
  else if bytes ≥ 1000000000 then fmtOneDecimal bytes 1000000000 ++ "G"
  else if bytes ≥ 1000000 then fmtOneDecimal bytes 1000000 ++ "M"
  else toString (bytes / 1024) ++ "K"

/-!
Artwork-line padding model (src/display.rs, `render_output`).

A character of an artwork line is modelled by the character itself together
with its terminal display width `w` (the value of the external
`unicode_width` crate's `UnicodeWidthStr::width` on that character; e.g. 1
for ASCII and for `é`, 2 for wide CJK characters).  Its UTF-8 byte length
(Rust `str::len` contribution) is `Char.utf8Size`, computed by Lean itself.
-/

/-- One artwork character: the character and its terminal display width. -/
structure WChar where
  c : Char
  w : Nat
deriving DecidableEq, Repr

/-- A padding space character (display width 1, one byte). -/
def spaceWChar : WChar := ⟨' ', 1⟩

/-- Unicode display width of a line (`UnicodeWidthStr::width`). -/
def lineWidth (l : List WChar) : Nat := (l.map (fun ch => ch.w)).sum

/-- Byte length of a line (Rust `str::len`). -/
def lineByteLen (l : List WChar) : Nat := (l.map (fun ch => ch.c.utf8Size)).sum

/-- From src/display.rs: `max_ascii_length` is the maximum display width
over the artwork line set (`.map(UnicodeWidthStr::width).max().unwrap_or(0)`). -/
def maxAsciiLength (lines : List (List WChar)) : Nat :=
  (lines.map lineWidth).foldr Nat.max 0

/-- From src/display.rs: one artwork line as emitted. The guard compares the
line's BYTE length against `max_ascii_length`
(`if ascii_line.len() < max_ascii_length`), and
`format!("\x7b:<width$\x7d", ...)` pads with spaces up to `width` counted in
CHARACTERS. -/
def padLine (line : List WChar) (maxW : Nat) : List WChar :=
  if lineByteLen line < maxW then
    line ++ List.replicate (maxW - line.length) spaceWChar
  else
    line

/-- From src/display.rs, `render_output`: the artwork-line portion of every
emitted output line — index `i < numItems` is paired with item `i` (an empty
line beyond the artwork), and the remaining artwork lines beyond the item
count are emitted afterwards. -/
def emittedArtworkLines (lines : List (List WChar)) (numItems : Nat) :
    List (List WChar) :=
  ((List.range numItems).map fun i => padLine (lines.getD i []) (maxAsciiLength lines))
    ++ ((List.range' numItems (lines.length - numItems)).map fun i =>
          padLine (lines.getD i []) (maxAsciiLength lines))

/-- The artwork line set `["é", "ab"]`: `é` (U+00E9) is one character of two
UTF-8 bytes and display width 1. -/
def exampleArtwork : List (List WChar) := [[⟨'é', 1⟩], [⟨'a', 1⟩, ⟨'b', 1⟩]]

/-!
Color resolution (src/display.rs, `hex_to_ansi` and `get_ansi_color_code`).
-/

/-- From src/display.rs, `get_ansi_color_code`: fixed ANSI name table,
consulted on the lowercased name. The source's wildcard arm prints a
diagnostic listing the valid names to stderr and returns `None`; a `none`
result of this function therefore coincides with the diagnostic being
emitted. -/
def get_ansi_color_code (colorName : String) : Option String :=
  match strLower colorName with
  | "black" => some "\x1b[30m"
  | "red" => some "\x1b[31m"
  | "green" => some "\x1b[32m"
  | "yellow" => some "\x1b[33m"
  | "blue" => some "\x1b[34m"
  | "magenta" => some "\x1b[35m"
  | "cyan" => some "\x1b[36m"
  | "white" => some "\x1b[37m"
  | "bright_black" | "gray" | "grey" => some "\x1b[90m"
  | "bright_red" => some "\x1b[91m"
  | "bright_green" => some "\x1b[92m"
  | "bright_yellow" => some "\x1b[93m"
  | "bright_blue" => some "\x1b[94m"
  | "bright_magenta" => some "\x1b[95m"
  | "bright_cyan" => some "\x1b[96m"
  | "bright_white" => some "\x1b[97m"
  | "orange" => some "\x1b[91m"
  | "purple" => some "\x1b[35m"
  | "violet" => some "\x1b[95m"
  | "reset" | "default" => some "\x1b[0m"
  | _ => none

/-- Value of a hexadecimal digit character (as accepted by Rust
`u8::from_str_radix(_, 16)`). -/
def hexDigitVal (c : Char) : Option Nat :=
  if '0' ≤ c ∧ c ≤ '9' then some (c.toNat - 48)
  else if 'a' ≤ c ∧ c ≤ 'f' then some (c.toNat - 87)
  else if 'A' ≤ c ∧ c ≤ 'F' then some (c.toNat - 55)
  else none

/-- Rust `u8::from_str_radix` on a two-character slice: two hex digits, or a
sign character followed by one digit (`+d` parses as `d`; `-0` parses as 0,
any other `-d` underflows). -/
def hexPairVal (a b : Char) : Option Nat :=
  match hexDigitVal a, hexDigitVal b with
  | some x, some y => some (16 * x + y)
  | _, _ =>
    if a = '+' then hexDigitVal b
    else if a = '-' then
      match hexDigitVal b with
      | some 0 => some 0
      | _ => none
    else none

/-- From src/display.rs, `hex_to_ansi`: first the ANSI name table, then a
`#RRGGBB` literal (guarded by `starts_with('#') && len() == 7`, a BYTE
length) parsed into a 24-bit truecolor escape, else the reset escape.
A 7-byte string whose characters do not split into `#` plus six one-byte
characters makes the Rust byte slicing panic or feeds non-digits to the hex
parser; the embedding returns the reset escape there, which matches every
non-panicking case. -/
def hex_to_ansi (color : String) : String :=
  match get_ansi_color_code color with
  | some ansiCode => ansiCode
  | none =>
    if strStarts color "#" ∧ color.utf8ByteSize = 7 then
      match color.data with
      | ['#', a, b, c, d, e, f] =>
        match hexPairVal a b, hexPairVal c d, hexPairVal e f with
        | some r, some g, some bl =>
          "\x1b[38;2;" ++ toString r ++ ";" ++ toString g ++ ";"
            ++ toString bl ++ "m"
        | _, _, _ => "\x1b[0m"
      | _ => "\x1b[0m"
    else "\x1b[0m"

/-!
GPU detection (src/collectors/hardware.rs).
-/

/-- One directory entry of `/sys/class/drm`, as far as `detect_all_gpus` and
`is_integrated_gpu` read it: the entry name and the results of the three
`fs::read_to_string` calls (`none` models a failed read; the `device` path
is a symlink to a directory, so reading it as a string normally fails). -/
structure DrmEntry where
  fileName : String
  deviceName : Option String
  vendor : Option String
  deviceContent : Option String
deriving DecidableEq, Repr

/-- From src/collectors/hardware.rs, `is_integrated_gpu`: vendor `0x8086`
(trimmed) or a `device` read containing `0000:00:02`. -/
def is_integrated_gpu (e : DrmEntry) : Bool :=
  (match e.vendor with
   | some v => strTrim v == "0x8086"
   | none => false)
  || (match e.deviceContent with
      | some p => strContains p "0000:00:02"
      | none => false)

/-- The sysfs arm of `detect_all_gpus`, per entry: names starting with
`card` and containing no `-`, with a non-empty trimmed `device/name` read,
tagged ` [Integrated]` / ` [Discrete]`. -/
def sysfsGpuOfEntry (e : DrmEntry) : Option String :=
  if strStarts e.fileName "card" ∧ strContains e.fileName "-" = false then
    match e.deviceName with
    | some deviceNameStr =>
      if strTrim deviceNameStr ≠ "" then
        some (strTrim deviceNameStr
          ++ (if is_integrated_gpu e then " [Integrated]" else " [Discrete]"))
      else none
    | none => none
  else none

/-- A GPU display string is tagged integrated when it contains
`"Integrated"` (the key used by the sort in `detect_all_gpus`). -/
def gpuIsIntegrated (s : String) : Bool := strContains s "Integrated"

/-- The comparator of the GPU sort: ascending by the integrated flag,
i.e. discrete (`false`) entries before integrated (`true`) entries. -/
def gpuLe (a b : String) : Prop := gpuIsIntegrated a ≤ gpuIsIntegrated b

instance : DecidableRel gpuLe := fun a b => by unfold gpuLe; infer_instance

instance : IsTotal String gpuLe := ⟨fun a b => le_total _ _⟩

instance : IsTrans String gpuLe := ⟨fun _ _ _ h1 h2 => le_trans h1 h2⟩

/-- From src/collectors/hardware.rs: `gpus.sort_by(...)` on the integrated
flag. Rust's `sort_by` is a stable sort; for a total preorder every stable
sort computes the same list, here given by insertion sort. -/
def sortGpus (l : List String) : List String := List.insertionSort gpuLe l

/-- Content of the last `[`...`]` bracket of a description
(`rfind('[')` followed by a relative `find(']')`), when both exist. -/
def lastBracketContent (s : String) : Option String :=
  match rfindCharIdx s.data '[' with
  | some bs =>
    match (s.data.drop bs).findIdx? (· == ']') with
    | some be => some (String.mk ((s.data.drop (bs + 1)).take (be - 1)))
    | none => none
  | none => none

/-- From src/collectors/hardware.rs, `parse_amd_gpu`: bracketed Radeon
content (taking the trailing SKU of an `"X / Y"` range), then a `Radeon`
occurrence in the main text, then known integrated codenames, then any
non-vendor bracket, then the generic name. -/
def parse_amd_gpu (description : String) : Option String :=
  (match lastBracketContent description with
   | some bracketContentStr =>
     if strContains bracketContentStr "Radeon" then
       if strContains bracketContentStr " / " then
         some ("AMD " ++ strTrim (lastSplitPart bracketContentStr " / " bracketContentStr))
       else
         some ("AMD " ++ bracketContentStr)
     else none
   | none => none)
  <|> (match findSubstrIdx description.data (String.data "Radeon") with
   | some radeonPos =>
     let afterRadeon := String.mk (description.data.drop radeonPos)
     some ("AMD " ++ strTrim (takeBeforeSubstr (takeBeforeSubstr afterRadeon " [") " ("))
   | none => none)
  <|> (if strContains description "Raphael" || strContains description "Renoir"
        || strContains description "Cezanne" || strContains description "Barcelo" then
      some "AMD Raphael"
    else none)
  <|> (match lastBracketContent description with
   | some bracketContentStr =>
     if strContains bracketContentStr "/" = false ∧ bracketContentStr.utf8ByteSize > 2 then
       some ("AMD " ++ bracketContentStr)
     else none
   | none => none)
  <|> some "AMD GPU"

/-- From src/collectors/hardware.rs, `parse_nvidia_gpu`: text after
`GeForce` (up to a ` [` or ` (`, trailing `]` stripped), else bracket
content mentioning GeForce/RTX/GTX, else the generic name. -/
def parse_nvidia_gpu (description : String) : Option String :=
  (match findSubstrIdx description.data (String.data "GeForce") with
   | some geforcePos =>
     let afterGeforce := String.mk (description.data.drop geforcePos)
     some (trimTrailing
       (strTrim (takeBeforeSubstr (takeBeforeSubstr afterGeforce " [") " (")) ']')
   | none => none)
  <|> (match lastBracketContent description with
   | some bracketContentStr =>
     if strContains bracketContentStr "GeForce" || strContains bracketContentStr "RTX"
        || strContains bracketContentStr "GTX" then
       some bracketContentStr
     else none
   | none => none)
  <|> some "NVIDIA GPU"

/-- From src/collectors/hardware.rs, `parse_intel_gpu`: strip the vendor
prefix; recognize UHD/HD Graphics/Iris/Arc marketing terms; else generic. -/
def parse_intel_gpu (description : String) : Option String :=
  let cleaned := strReplace description "Intel Corporation " ""
  if strContains cleaned "UHD Graphics" || strContains cleaned "HD Graphics"
      || strContains cleaned "Iris" || strContains cleaned "Arc" then
    some ("Intel " ++ strTrim (takeBeforeSubstr cleaned " ["))
  else
    some ("Intel " ++ strTrim cleaned)

/-- From src/collectors/hardware.rs, `extract_gpu_model_name`: vendor
dispatch, then a non-vendor bracket longer than 3 bytes, then the raw
cleaned description. -/
def extract_gpu_model_name (gpuDescription : String) : Option String :=
  if strContains gpuDescription "AMD" || strContains gpuDescription "Advanced Micro Devices" then
    parse_amd_gpu gpuDescription
  else if strContains gpuDescription "NVIDIA" || strContains gpuDescription "GeForce" then
    parse_nvidia_gpu gpuDescription
  else if strContains gpuDescription "Intel" then
    parse_intel_gpu gpuDescription
  else
    (match lastBracketContent gpuDescription with
     | some bracketContentStr =>
       if strContains bracketContentStr "/" = false ∧ bracketContentStr.utf8ByteSize > 3 then
         some bracketContentStr
       else none
     | none => none)
    <|> some gpuDescription

/-- From src/collectors/hardware.rs, `detect_gpu_type`: the heuristic
integrated / discrete classification for the lspci path. -/
def detect_gpu_type (lspciLine gpuName : String) : String :=
  if strContains (strLower lspciLine) "integrated"
      || strContains (strLower gpuName) "integrated"
      || strContains (strLower gpuName) "raphael"
      || strContains (strLower gpuName) "renoir"
      || strContains (strLower gpuName) "cezanne"
      || strContains (strLower gpuName) "iris"
      || strContains (strLower gpuName) "uhd"
      || strContains (strLower gpuName) "hd graphics"
      || (strStarts lspciLine "00:02.0" && strContains (strLower lspciLine) "intel") then
    " [Integrated]"
  else
    " [Discrete]"

/-- From src/collectors/hardware.rs, `parse_gpu_from_lspci`: text after the
last `:`, revision suffix stripped, run through the model-name extractor and
tagged. -/
def parse_gpu_from_lspci (line : String) : Option String :=
  match rfindCharIdx line.data ':' with
  | some colonPos =>
    let gpuPart := strTrim (String.mk (line.data.drop (colonPos + 1)))
    let cleaned := strTrim (takeBeforeSubstr gpuPart " (rev ")
    match extract_gpu_model_name cleaned with
    | some gpuName => some (gpuName ++ detect_gpu_type line gpuName)
    | none => none
  | none => none

/-- An lspci line describes a GPU when it mentions one of the three
controller classes. -/
def isGpuLine (line : String) : Bool :=
  strContains line "VGA compatible controller" || strContains line "3D controller"
    || strContains line "Display controller"

/-- From src/collectors/hardware.rs, `detect_all_gpus`, as a function of the
host state it reads: the `/sys/class/drm` entries (in directory order) and
the lspci fallback output lines (`none` models `run_command` failing).
Non-empty sysfs results are sorted and returned; otherwise non-empty parsed
lspci results are sorted and returned; otherwise `Ok(vec![])`. The function
never returns an error. -/
def detect_all_gpus (entries : List DrmEntry) (lspci : Option (List String)) :
    Except String (List String) :=
  if (entries.filterMap sysfsGpuOfEntry).isEmpty then
    match lspci with
    | some outputLines =>
      if (outputLines.filter isGpuLine).isEmpty then .ok []
      else if ((outputLines.filter isGpuLine).filterMap parse_gpu_from_lspci).isEmpty then .ok []
      else .ok (sortGpus ((outputLines.filter isGpuLine).filterMap parse_gpu_from_lspci))
    | none => .ok []
  else .ok (sortGpus (entries.filterMap sysfsGpuOfEntry))

/-- The `GpuInfo` struct of src/data/hardware.rs. -/
structure GpuInfo where
  primary : String
  all_gpus : List String
deriving DecidableEq, Repr

/-- The `let all_gpus = detect_all_gpus().unwrap_or_else(|_| vec!["Unknown GPU"])`
binding of `collect_gpu_info`. -/
def detectedGpus (entries : List DrmEntry) (lspci : Option (List String)) :
    List String :=
  match detect_all_gpus entries lspci with
  | .ok gpus => gpus
  | .error _ => ["Unknown GPU"]

/-- From src/collectors/hardware.rs, `collect_gpu_info`: the primary GPU is
the sentinel when the list is empty and the first list entry otherwise. -/
def collect_gpu_info (entries : List DrmEntry) (lspci : Option (List String)) :
    GpuInfo :=
  { primary :=
      if (detectedGpus entries lspci).isEmpty then "Unknown GPU"
      else (detectedGpus entries lspci).headD ""
    all_gpus := detectedGpus entries lspci }

/-!
Renderer (src/display.rs, `render_output` and `get_output_value`).
-/

/-- The `ConfigEntry` struct of src/config.rs (the Rust field is `r#type`). -/
structure ConfigEntry where
  key : String
  type : String
  value : String
  color : Option String
  value_color : Option String
deriving DecidableEq, Repr

/-- The `SystemData` struct of src/display.rs. -/
structure SystemData where
  os_name : String
  kernel_version : String
  cpu_brand : String
  gpu : String
  all_gpus : List String
  username : String
  hostname : String
  wm_de : String
  memory : String
  pkg_count : Nat
  flatpak_pkg_count : Nat
  uptime_formatted : String
  os_age : String
  editor : String
  shell : String
  terminal : String
  user_info : String
  disk_usage : String
  init_system : String
  battery_info : String
deriving Repr

/-- From src/display.rs, `get_output_value`. The `command` arm spawns
`sh -c value`; `runShell` models that spawn, returning the trimmed
(lossy-decoded) stdout, with `none` for a spawn failure
(`unwrap_or_else(|_| "Command failed")`). Every other arm is pure. -/
def get_output_value (entry : ConfigEntry) (sd : SystemData)
    (runShell : String → Option String) : String :=
  if entry.type = "default" then
    match entry.value with
    | "kernel" => sd.kernel_version
    | "os" => sd.os_name
    | "cpu" => sd.cpu_brand
    | "gpu" => sd.gpu
    | "gpu1" => sd.all_gpus.getD 0 "No GPU"
    | "gpu2" => sd.all_gpus.getD 1 "No secondary GPU"
    | "gpu3" => sd.all_gpus.getD 2 "No third GPU"
    | "wm" => sd.wm_de
    | "editor" => sd.editor
    | "shell" => sd.shell
    | "terminal" => sd.terminal
    | "username" => sd.username
    | "hostname" => strTrim sd.hostname
    | "memory" => sd.memory
    | "pkg_count" => toString sd.pkg_count
    | "flatpak_pkg_count" => toString sd.flatpak_pkg_count
    | "uptime_seconds" => sd.uptime_formatted
    | "os_age" => sd.os_age
    | "user_info" => sd.user_info
    | "disk_usage" => sd.disk_usage
    | "init_system" => sd.init_system
    | "battery" => sd.battery_info
    | _ => "Unknown default value"
  else if entry.type = "text" then entry.value
  else if entry.type = "command" then (runShell entry.value).getD "Command failed"
  else "Invalid type"

/-- From src/display.rs, `render_output`, the `rendered_items` construction:
before any artwork-line pairing, an item whose value selector is `gpu` is
replaced (when `show_all_gpus` is set) by one item per detected GPU whose
selector is `gpu\x7bi+1\x7d`; every other item is kept as is. -/
def rendered_items (showAllGpus : Bool) (allGpus : List String)
    (items : List ConfigEntry) : List ConfigEntry :=
  items.flatMap fun entry =>
    if entry.value == "gpu" && showAllGpus then
      (List.range allGpus.length).map fun gpuIdx =>
        ⟨entry.key, entry.type, "gpu" ++ toString (gpuIdx + 1),
          entry.color, entry.value_color⟩
    else [entry]

/-- A concrete snapshot whose GPU list is `["A [Discrete]", "B [Integrated]"]`
(all other fields arbitrary), used to instantiate the renderer theorems. -/
def exampleSD : SystemData :=
  { os_name := "TestOS 1.0"
    kernel_version := "6.1.0"
    cpu_brand := "TestCPU"
    gpu := "A [Discrete]"
    all_gpus := ["A [Discrete]", "B [Integrated]"]
    username := "user"
    hostname := "host"
    wm_de := "TestWM"
    memory := "1.00 GB / 2.00 GB"
    pkg_count := 3
    flatpak_pkg_count := 1
    uptime_formatted := "1h 01m"
    os_age := "2 days"
    editor := "nano"
    shell := "zsh"
    terminal := "kitty"
    user_info := "user@host"
    disk_usage := "10.0G / 20.0G (50%)"
    init_system := "systemd"
    battery_info := "No battery" }

/-!
Kitty image protocol encoder (src/display.rs, module `kitty_support`).
-/

/-- The standard base64 alphabet (the crate's `STANDARD` engine). -/
def b64Char (i : Nat) : Char :=
  "ABCDEFGHIJKLMNOPQRSTUVWXYZabcdefghijklmnopqrstuvwxyz0123456789+/".data.getD i '='

/-- Standard base64 with padding, over bytes given as naturals below 256. -/
def base64Encode : List Nat → List Char
  | b1 :: b2 :: b3 :: rest =>
    b64Char (b1 % 256 / 4) :: b64Char (b1 % 4 * 16 + b2 % 256 / 16)
      :: b64Char (b2 % 16 * 4 + b3 % 256 / 64) :: b64Char (b3 % 64)
      :: base64Encode rest
  | [b1, b2] =>
    [b64Char (b1 % 256 / 4), b64Char (b1 % 4 * 16 + b2 % 256 / 16),
     b64Char (b2 % 16 * 4), '=']
  | [b1] =>
    [b64Char (b1 % 256 / 4), b64Char (b1 % 4 * 16), '=', '=']
  | [] => []

/-- The control prefix written before each chunk
(`\x1b_Ga=T,f=100,s=\x7bw\x7d,v=\x7bh\x7d,x=\x7bx\x7d,y=\x7by\x7d,m=\x7bflag\x7d;`). -/
def frameHeader (width height : Nat) (hOff vOff : Int) (moreFlag : Nat) : String :=
  "\x1b_Ga=T,f=100,s=" ++ toString width ++ ",v=" ++ toString height
    ++ ",x=" ++ toString hOff ++ ",y=" ++ toString vOff
    ++ ",m=" ++ toString moreFlag ++ ";"

/-- The consecutive ≤ 4096-character slices the `transmit_png` loop walks
(`start .. min(start + 4096, len)`). -/
def chunkify (l : List Char) : List (List Char) :=
  match l with
  | [] => []
  | a :: rest => ((a :: rest).take 4096) :: chunkify ((a :: rest).drop 4096)
  termination_by l.length
  decreasing_by simp [List.length_drop]; omega

/-- The `while start < encoded.len()` loop of `transmit_png`: each chunk is
framed by the control prefix and the `\x1b\\` terminator, with the more-data
flag `m = 1` iff characters remain after the chunk (`end < encoded.len()`). -/
def transmitLoop (width height : Nat) (hOff vOff : Int) (encoded : List Char) :
    String :=
  match encoded with
  | [] => ""
  | a :: rest =>
    frameHeader width height hOff vOff
        (if 4096 < (a :: rest).length then 1 else 0)
      ++ String.mk ((a :: rest).take 4096) ++ "\x1b\\"
      ++ transmitLoop width height hOff vOff ((a :: rest).drop 4096)
  termination_by encoded.length
  decreasing_by simp [List.length_drop]; omega

/-- From src/display.rs, `transmit_png`: base64-encode the PNG bytes and
emit the chunked escape-framed payload (the `write!` into a `String` cannot
fail, so the `Result` is always `Ok` and is dropped here). -/
def transmit_png (pngBytes : List Nat) (width height : Nat) (hOff vOff : Int) :
    String :=
  transmitLoop width height hOff vOff (base64Encode pngBytes)

/-- Right-fold concatenation of strings, used to state what the
transmission loop produces. -/
def concatStrings (l : List String) : String := l.foldr (· ++ ·) ""

/-!
Shell detection (src/collectors/system.rs, `get_shell`).
-/

/-- What one iteration of the ancestor walk reads about a process:
the parent pid parsed from field 4 of `/proc/pid/stat` (`none` when the
field is missing or unparsable) and the basename of the `/proc/pid/exe`
link target (`none` when the link cannot be read). A pid absent from the
table models `/proc/pid/stat` being unreadable, which breaks the loop. -/
structure ProcEntry where
  statPpid : Option Nat
  exeName : Option String
deriving DecidableEq, Repr

/-- The known-shell table of `get_shell`. -/
def knownShells : List String :=
  ["moonsh", "nushell", "fish", "bash", "zsh", "dash", "ksh", "csh", "tcsh", "nu"]

/-- The skip table of `get_shell` (terminal emulators, editors, fetch
tools), matched by substring. -/
def skipProcesses : List String :=
  ["swiftfetch", "fastfetch", "neofetch", "electron", "code", "cursor",
   "gnome-terminal", "konsole", "xterm", "alacritty", "kitty", "wezterm"]

/-- The `for _ in 0..10` ancestor walk of `get_shell` over a process table
`tbl`, with the fuel made explicit (the source fixes it at 10). Returns the
detected shell (or `none`) together with the list of pids whose records were
inspected. Every non-returning branch of the loop body advances to the
parsed parent pid. -/
def shellWalkAux (tbl : Nat → Option ProcEntry) :
    Nat → Option Nat → Option String × List Nat
  | 0, _ => (none, [])
  | _ + 1, none => (none, [])
  | fuel + 1, some pid =>
    match tbl pid with
    | none => (none, [pid])
    | some entry =>
      match entry.exeName with
      | some exeNameStr =>
        if knownShells.contains (strLower exeNameStr) then
          (some (strLower exeNameStr), [pid])
        else if skipProcesses.any (fun skip => strContains (strLower exeNameStr) skip) then
          ((shellWalkAux tbl fuel entry.statPpid).1,
            pid :: (shellWalkAux tbl fuel entry.statPpid).2)
        else if strLower exeNameStr = "sh" ∨ strLower exeNameStr = "dash" then
          ((shellWalkAux tbl fuel entry.statPpid).1,
            pid :: (shellWalkAux tbl fuel entry.statPpid).2)
        else
          ((shellWalkAux tbl fuel entry.statPpid).1,
            pid :: (shellWalkAux tbl fuel entry.statPpid).2)
      | none =>
        ((shellWalkAux tbl fuel entry.statPpid).1,
          pid :: (shellWalkAux tbl fuel entry.statPpid).2)

/-- From src/collectors/system.rs, `get_shell`: the bounded ancestor walk
starting at the parent pid read from `/proc/self/stat` (`selfPpid`), falling
back to the basename of the `SHELL` environment variable
(`split('/').last().unwrap_or("Unknown")`; `split` never yields `None`). -/
def get_shell (tbl : Nat → Option ProcEntry) (selfPpid : Option Nat)
    (shellEnv : Option String) : String :=
  match (shellWalkAux tbl 10 selfPpid).1 with
  | some shellName => shellName
  | none => afterLastChar (shellEnv.getD "Unknown") '/'

/-- A process table with a parent-pid cycle: pid 7 is its own parent and its
executable is not a known shell. -/
def cycleTable : Nat → Option ProcEntry := fun pid =>
  if pid = 7 then some ⟨some 7, some "looper"⟩ else none

/-!
Helper lemmas.
-/

theorem concatStrings_cons (s : String) (l : List String) :
    concatStrings (s :: l) = s ++ concatStrings l := rfl

theorem chunkify_len_le (l : List Char) : ∀ c ∈ chunkify l, c.length ≤ 4096 := by
  match l with
  | [] => simp [chunkify]
  | a :: rest =>
    rw [chunkify]
    intro c hc
    rcases List.mem_cons.mp hc with h | h
    · subst h; simp
    · exact chunkify_len_le ((a :: rest).drop 4096) c h
  termination_by l.length
  decreasing_by simp [List.length_drop]; omega

theorem chunkify_flatten (l : List Char) : (chunkify l).flatten = l := by
  match l with
  | [] => simp [chunkify]
  | a :: rest =>
    rw [chunkify]
    simp only [List.flatten_cons]
    rw [chunkify_flatten ((a :: rest).drop 4096)]
    exact List.take_append_drop _ _
  termination_by l.length
  decreasing_by simp [List.length_drop]; omega

theorem chunkify_eq_nil_iff (l : List Char) : chunkify l = [] ↔ l = [] := by
  match l with
  | [] => simp [chunkify]
  | a :: rest => rw [chunkify]; simp

theorem transmitLoop_eq (width height : Nat) (hOff vOff : Int) (l : List Char) :
    transmitLoop width height hOff vOff l =
      concatStrings
        (((chunkify l).dropLast.map fun chunk =>
            frameHeader width height hOff vOff 1 ++ String.mk chunk ++ "\x1b\\")
          ++ ((chunkify l).getLast?.map fun chunk =>
            frameHeader width height hOff vOff 0 ++ String.mk chunk ++ "\x1b\\").toList) := by
  match l with
  | [] => simp [transmitLoop, chunkify, concatStrings]
  | a :: rest =>
    rw [transmitLoop, chunkify]
    rcases hcs : chunkify ((a :: rest).drop 4096) with _ | ⟨c2, cs2⟩
    · have hd : (a :: rest).drop 4096 = [] := (chunkify_eq_nil_iff _).mp hcs
      have hlen : ¬ 4096 < (a :: rest).length := by
        have := congrArg List.length hd
        simp only [List.length_drop, List.length_nil] at this
        omega
      rw [hd, if_neg hlen]
      simp [transmitLoop, concatStrings]
    · have hd : (a :: rest).drop 4096 ≠ [] := by
        intro h0
        rw [h0] at hcs
        simp [chunkify] at hcs
      have hlen : 4096 < (a :: rest).length := by
        rcases Nat.lt_or_ge 4096 (a :: rest).length with h | h
        · exact h
        · exact absurd (List.drop_eq_nil_of_le h) hd
      rw [if_pos hlen, transmitLoop_eq width height hOff vOff ((a :: rest).drop 4096), hcs]
      simp [List.dropLast_cons_of_ne_nil, List.getLast?_cons_cons, concatStrings_cons]
  termination_by l.length
  decreasing_by simp [List.length_drop]; omega

theorem shellWalk_trace_length (tbl : Nat → Option ProcEntry) (fuel : Nat)
    (p : Option Nat) : (shellWalkAux tbl fuel p).2.length ≤ fuel := by
  induction fuel generalizing p with
  | zero => cases p <;> simp [shellWalkAux]
  | succ n ih =>
    cases p with
    | none => simp [shellWalkAux]
    | some pid =>
      cases htbl : tbl pid with
      | none => simp [shellWalkAux, htbl]
      | some entry =>
        cases hexe : entry.exeName with
        | none =>
          simp only [shellWalkAux, htbl, hexe, List.length_cons]
          have := ih entry.statPpid
          omega
        | some exeNameStr =>
          simp only [shellWalkAux, htbl, hexe]
          split
          · simp only [List.length_cons, List.length_nil]
            omega
          · simp only [ite_self, List.length_cons]
            have := ih entry.statPpid
            omega

theorem detect_all_gpus_sorted (entries : List DrmEntry)
    (lspci : Option (List String)) (gpus : List String)
    (h : detect_all_gpus entries lspci = .ok gpus) : List.Sorted gpuLe gpus := by
  unfold detect_all_gpus at h
  repeat' split at h
  all_goals
    simp only [Except.ok.injEq] at h
  all_goals subst h
  all_goals
    first
    | exact List.sorted_nil
    | exact List.sorted_insertionSort gpuLe _

theorem detect_all_gpus_never_err (entries : List DrmEntry)
    (lspci : Option (List String)) :
    ∃ gpus, detect_all_gpus entries lspci = .ok gpus := by
  unfold detect_all_gpus
  repeat' split
  all_goals exact ⟨_, rfl⟩

/-!
Claim theorems.
-/

/-- C1 (counterexample): the uptime formatter applied to 59 seconds does NOT
return `"59m"` — 59 seconds is 0 whole minutes, so the minutes-only branch
prints `"0m"`. -/
theorem format_uptime_59_counterexample : format_uptime 59 ≠ "59m" := by decide

/-- C1 (amended): `format_uptime` returns hours plus zero-padded minutes
when the hour count is positive and plain minutes otherwise;
`format_uptime 0 = "0m"`, `format_uptime 3661 = "1h 01m"`, and
`format_uptime 59 = "0m"` (not `"59m"`: 59 seconds is less than a minute). -/
theorem format_uptime_spec :
    format_uptime 0 = "0m" ∧
    format_uptime 3661 = "1h 01m" ∧
    format_uptime 59 = "0m" ∧
    (∀ seconds : Nat, seconds < 3600 →
      format_uptime seconds = toString (seconds / 60) ++ "m") ∧
    (∀ seconds : Nat, 3600 ≤ seconds →
      format_uptime seconds =
        toString (seconds / 3600) ++ "h " ++ pad2 ((seconds % 3600) / 60) ++ "m") := by
  refine ⟨by decide, by decide, by decide, ?_, ?_⟩
  · intro seconds h
    have h0 : seconds / 3600 = 0 := Nat.div_eq_of_lt h
    have h1 : seconds % 3600 = seconds := Nat.mod_eq_of_lt h
    simp [format_uptime, h0, h1]
  · intro seconds h
    have h0 : 0 < seconds / 3600 := Nat.div_pos h (by norm_num)
    simp [format_uptime, h0]

/-- C1 (witness): the two general branches of `format_uptime_spec` applied at
125 seconds and 7200 seconds. -/
theorem format_uptime_spec_witness :
    format_uptime 125 = "2m" ∧ format_uptime 7200 = "2h 00m" :=
  ⟨(format_uptime_spec.2.2.2.1 125 (by norm_num)).trans (by decide),
   (format_uptime_spec.2.2.2.2 7200 (by norm_num)).trans (by decide)⟩

/-- C2 (counterexample): the disk size formatter maps 500000 bytes to
`"488K"`, not `"0.5M"` — 500000 is below the 10^6 M-threshold, so the K
branch divides by 1024. -/
theorem format_size_500000_counterexample : format_size 500000 ≠ "0.5M" := by
  decide

/-- C2 (amended): the disk size formatter uses decimal thresholds
(≥ 10^12 → T, ≥ 10^9 → G, ≥ 10^6 → M, else K, one decimal place except K);
`1500000000000 → "1.5T"`, `2000000000 → "2.0G"`, `2048 → "2K"`, and
`500000 → "488K"` (the K branch: 500000 < 10^6, integer-divided by 1024). -/
theorem format_size_spec :
    format_size 1500000000000 = "1.5T" ∧
    format_size 2000000000 = "2.0G" ∧
    format_size 500000 = "488K" ∧
    format_size 2048 = "2K" ∧
    (∀ bytes : Nat, bytes < 1000000 →
      format_size bytes = toString (bytes / 1024) ++ "K") := by
  refine ⟨by decide, by decide, by decide, by decide, ?_⟩
  intro bytes h
  unfold format_size
  have h1 : ¬ bytes ≥ 1000000000000 := by omega
  have h2 : ¬ bytes ≥ 1000000000 := by omega
  have h3 : ¬ bytes ≥ 1000000 := by omega
  rw [if_neg h1, if_neg h2, if_neg h3]

/-- C2 (witness): the K branch of `format_size_spec` applied at 999999. -/
theorem format_size_spec_witness : format_size 999999 = "976K" :=
  (format_size_spec.2.2.2.2 999999 (by norm_num)).trans (by decide)

/-- C3: on the artwork line set `["é", "ab"]` (`é` = two UTF-8 bytes,
display width 1) the renderer emits the first artwork line UNPADDED — its
byte length 2 is not less than the maximum display width 2, so the emitted
line has display width 1, not the maximum 2. This contradicts the claim
that every emitted artwork line is padded to the maximum Unicode display
width of the artwork line set. -/
theorem artwork_padding_divergence :
    maxAsciiLength exampleArtwork = 2 ∧
    (emittedArtworkLines exampleArtwork 2).map lineWidth = [1, 2] ∧
    lineByteLen [⟨'é', 1⟩] = 2 ∧
    lineWidth [⟨'é', 1⟩] = 1 := by decide

/-- C4 (counterexample): with no DRM entries and a failing lspci command —
no GPU detected by any strategy — the snapshot's GPU list is EMPTY and does
not contain the sentinel `"Unknown GPU"` (`detect_all_gpus` ends in
`Ok(vec![])`, so the `unwrap_or_else` sentinel branch is never taken). -/
theorem gpu_list_empty_counterexample :
    (collect_gpu_info [] none).all_gpus = [] ∧
    ¬ "Unknown GPU" ∈ (collect_gpu_info [] none).all_gpus := by decide

/-- C4 (amended): when no GPU is detected by any strategy the snapshot's GPU
LIST is empty and only the PRIMARY field carries the sentinel
`"Unknown GPU"`; whenever the list is empty the primary is the sentinel; the
list would hold `["Unknown GPU"]` only on a detection error, and the
detector never returns an error. -/
theorem gpu_primary_sentinel :
    (collect_gpu_info [] none).primary = "Unknown GPU" ∧
    (collect_gpu_info [] none).all_gpus = [] ∧
    (∀ (entries : List DrmEntry) (lspci : Option (List String)),
      (collect_gpu_info entries lspci).all_gpus = [] →
      (collect_gpu_info entries lspci).primary = "Unknown GPU") ∧
    (∀ (entries : List DrmEntry) (lspci : Option (List String)),
      ∃ gpus, detect_all_gpus entries lspci = .ok gpus) := by
  refine ⟨by decide, by decide, ?_, fun e l => detect_all_gpus_never_err e l⟩
  intro entries lspci h
  have h2 : detectedGpus entries lspci = [] := h
  show (if (detectedGpus entries lspci).isEmpty then "Unknown GPU"
        else (detectedGpus entries lspci).headD "") = "Unknown GPU"
  rw [h2]
  simp

/-- C4 (witness): `gpu_primary_sentinel` applied at the host state with no
DRM entries and no lspci output. -/
theorem gpu_primary_sentinel_witness :
    (collect_gpu_info [] none).primary = "Unknown GPU" :=
  gpu_primary_sentinel.2.2.1 [] none (by decide)

/-- C5: GPU detection sorts discrete-tagged entries before integrated ones —
`["X [Integrated]", "Y [Discrete]"]` becomes
`["Y [Discrete]", "X [Integrated]"]`, the sort output is always ordered by
the integrated flag, every successful detection result is so ordered — and
the snapshot's primary GPU is the first entry of the list (`"Unknown GPU"`
when the list is empty). -/
theorem gpu_sort_discrete_first :
    sortGpus ["X [Integrated]", "Y [Discrete]"] =
      ["Y [Discrete]", "X [Integrated]"] ∧
    (∀ l : List String, List.Sorted gpuLe (sortGpus l)) ∧
    (∀ (entries : List DrmEntry) (lspci : Option (List String))
      (gpus : List String), detect_all_gpus entries lspci = .ok gpus →
      List.Sorted gpuLe gpus) ∧
    (∀ (entries : List DrmEntry) (lspci : Option (List String)),
      (collect_gpu_info entries lspci).primary =
        ((collect_gpu_info entries lspci).all_gpus).headD "Unknown GPU") := by
  refine ⟨by decide, fun l => List.sorted_insertionSort gpuLe l,
    fun e l g h => detect_all_gpus_sorted e l g h, ?_⟩
  intro entries lspci
  show (if (detectedGpus entries lspci).isEmpty then "Unknown GPU"
        else (detectedGpus entries lspci).headD "") =
      (detectedGpus entries lspci).headD "Unknown GPU"
  cases h : detectedGpus entries lspci <;> simp

/-- C5 (witness): `gpu_sort_discrete_first` applied at a host state with an
integrated card listed before a discrete card in sysfs order. -/
theorem gpu_sort_discrete_first_witness :
    List.Sorted gpuLe ["DGpu [Discrete]", "IGpu [Integrated]"] :=
  gpu_sort_discrete_first.2.2.1
    [⟨"card0", some "IGpu", some "0x8086", none⟩,
     ⟨"card1", some "DGpu", none, none⟩] none
    ["DGpu [Discrete]", "IGpu [Integrated]"] (by rfl)

/-- C6: with `show_all_gpus` enabled, an item whose value selector is `gpu`
is replaced — before artwork pairing — by one item per detected GPU
retargeted to `gpu\x7bi\x7d` (1-based); with GPUs
`["A [Discrete]", "B [Integrated]"]` a single `gpu` item expands to two
items whose selectors `gpu1` and `gpu2` resolve to `"A [Discrete]"` and
`"B [Integrated]"`. -/
theorem show_all_gpus_expansion :
    (∀ (gpus : List String) (entry : ConfigEntry), entry.value = "gpu" →
      rendered_items true gpus [entry] =
        (List.range gpus.length).map fun i =>
          ⟨entry.key, entry.type, "gpu" ++ toString (i + 1),
            entry.color, entry.value_color⟩) ∧
    rendered_items true exampleSD.all_gpus
        [⟨"GPU", "default", "gpu", none, none⟩] =
      [⟨"GPU", "default", "gpu1", none, none⟩,
       ⟨"GPU", "default", "gpu2", none, none⟩] ∧
    get_output_value ⟨"GPU", "default", "gpu1", none, none⟩ exampleSD
        (fun _ => none) = "A [Discrete]" ∧
    get_output_value ⟨"GPU", "default", "gpu2", none, none⟩ exampleSD
        (fun _ => none) = "B [Integrated]" := by
  refine ⟨?_, by decide, by decide, by decide⟩
  intro gpus entry h
  simp [rendered_items, h]

/-- C6 (witness): the expansion rule of `show_all_gpus_expansion` applied to
a one-GPU list. -/
theorem show_all_gpus_expansion_witness :
    rendered_items true ["G"] [⟨"k", "default", "gpu", none, none⟩] =
      [⟨"k", "default", "gpu1", none, none⟩] :=
  (show_all_gpus_expansion.1 ["G"] ⟨"k", "default", "gpu", none, none⟩
    rfl).trans (by decide)

/-- C7: color resolution order — the fixed ANSI name table first, then a
`#RRGGBB` truecolor literal, then the reset escape with a diagnostic:
`hex_to_ansi "#FF0000"` is the truecolor escape for (255,0,0) (after the
name table missed), `hex_to_ansi "red"` is the fixed 8-color escape from the
table, and `hex_to_ansi "not-a-color"` is the reset escape, with the name
table returning `none` (the arm that emits the diagnostic). -/
theorem hex_to_ansi_resolution :
    hex_to_ansi "#FF0000" = "\x1b[38;2;255;0;0m" ∧
    get_ansi_color_code "#FF0000" = none ∧
    hex_to_ansi "red" = "\x1b[31m" ∧
    get_ansi_color_code "red" = some "\x1b[31m" ∧
    hex_to_ansi "not-a-color" = "\x1b[0m" ∧
    get_ansi_color_code "not-a-color" = none := by decide

/-- C8: the image transmitter splits the base64 encoding of the PNG bytes
into consecutive chunks of at most 4096 characters whose concatenation is
the full encoding, and emits exactly one control-prefixed frame per chunk,
with more-data flag `m = 1` on every chunk before the last and `m = 0` on
the final chunk. -/
theorem transmit_png_chunking (pngBytes : List Nat) (width height : Nat)
    (hOff vOff : Int) :
    (∀ chunk ∈ chunkify (base64Encode pngBytes), chunk.length ≤ 4096) ∧
    (chunkify (base64Encode pngBytes)).flatten = base64Encode pngBytes ∧
    transmit_png pngBytes width height hOff vOff =
      concatStrings
        (((chunkify (base64Encode pngBytes)).dropLast.map fun chunk =>
            frameHeader width height hOff vOff 1 ++ String.mk chunk ++ "\x1b\\")
          ++ ((chunkify (base64Encode pngBytes)).getLast?.map fun chunk =>
            frameHeader width height hOff vOff 0 ++ String.mk chunk
              ++ "\x1b\\").toList) :=
  ⟨chunkify_len_le _, chunkify_flatten _, transmitLoop_eq _ _ _ _ _⟩

/-- C9: the shell-detection ancestor walk inspects at most 10 process
records for EVERY process table (including tables with parent-pid cycles or
missing links — the embedding is total, so it terminates on all of them),
and whenever the walk finds no known shell, `get_shell` falls back to the
basename of the `SHELL` environment variable; on a concrete cyclic table
the walk visits exactly 10 records and the fallback yields `"zsh"` from
`SHELL=/bin/zsh`. -/
theorem get_shell_bounded_walk :
    (∀ (tbl : Nat → Option ProcEntry) (startPid : Option Nat),
      (shellWalkAux tbl 10 startPid).2.length ≤ 10) ∧
    (∀ (tbl : Nat → Option ProcEntry) (startPid : Option Nat)
      (shellEnv : Option String), (shellWalkAux tbl 10 startPid).1 = none →
      get_shell tbl startPid shellEnv =
        afterLastChar (shellEnv.getD "Unknown") '/') ∧
    get_shell cycleTable (some 7) (some "/bin/zsh") = "zsh" ∧
    (shellWalkAux cycleTable 10 (some 7)).2.length = 10 := by
  refine ⟨fun tbl p => shellWalk_trace_length tbl 10 p, ?_, by decide, by decide⟩
  intro tbl startPid shellEnv h
  simp [get_shell, h]

/-- C9 (witness): the fallback rule of `get_shell_bounded_walk` applied to a
table where the start pid has no record and `SHELL` is unset. -/
theorem get_shell_bounded_walk_witness :
    get_shell cycleTable (some 8) none = "Unknown" :=
  (get_shell_bounded_walk.2.1 cycleTable (some 8) none (by decide)).trans
    (by decide)

/-- C10: value resolution is total on the item type — any display item whose
type string is none of `default`, `text`, `command` resolves to the literal
`"Invalid type"` (the renderer never fails on it). -/
theorem get_output_value_invalid_type :
    ∀ (entry : ConfigEntry) (sd : SystemData)
      (runShell : String → Option String),
      entry.type ≠ "default" → entry.type ≠ "text" → entry.type ≠ "command" →
      get_output_value entry sd runShell = "Invalid type" := by
  intro entry sd runShell h1 h2 h3
  simp [get_output_value, h1, h2, h3]

/-- C10 (witness): `get_output_value_invalid_type` applied to an item of
type `"bogus"`. -/
theorem get_output_value_invalid_type_witness :
    get_output_value ⟨"k", "bogus", "v", none, none⟩ exampleSD (fun _ => none) =
      "Invalid type" :=
  get_output_value_invalid_type ⟨"k", "bogus", "v", none, none⟩ exampleSD
    (fun _ => none) (by decide) (by decide) (by decide)

end Swiftfetch
